import Mathlib

/-!
# SpaarApp — verification of the import / budget core

Shallow embedding of the SpaarApp repository's transaction-import and
budget code, together with proofs settling the specification claims.

Embedded source (TypeScript/JavaScript), with amounts modelled as exact
rationals (`ℚ`) and JS strings as Lean `String`:

* the sample-data import script (`parseCsvToTransactions`, `mapCategory`,
  `prepareData`) — file `src/unnamed/part_008`;
* the budget component helpers (`getProgressPercentage`, `getBudgetStatus`,
  `handleCreateBudget`, `handleUpdateBudget`) —
  `src/spaarapp/frontend/src/components/Budgets.tsx`;
* the import-result shapes — `src/spaarapp/frontend/src/types/index.ts`.

The application's real CSV import (`import_csv` / `parse_csv` Tauri
commands) is Rust backend code that is not part of the frontend sources;
only its callers and result types appear there.  Where a claim is decided
by that missing backend, a definition marked `Modelled from the spec:`
follows the specification's words and the claim is settled against it.
-/

namespace SpaarApp

/-- Direction of a transaction, from the `transaction_type` field of the
`Transaction` interface (`types/index.ts`, lines 4–20): `'credit' | 'debit'`. -/
inductive TransactionType where
  | credit
  | debit
deriving DecidableEq, Repr

/-- The `Transaction` record of `types/index.ts` (lines 4–20).  JS `number`
is modelled as `ℚ`; optional fields as `Option`.  The presentation-only
metadata fields (`balance_after`, `recurring_frequency`, `created_at`,
`updated_at`) are not used by any embedded computation and are omitted. -/
structure Transaction where
  id : String
  description : String
  amount : ℚ
  date : String
  category_id : Option String
  account_number : Option String
  account_holder : Option String
  transaction_type : TransactionType
  notes : String
  tags : List String
  is_recurring : Bool
deriving DecidableEq, Repr

/-- Budget period, from the `Budget` interface of `types/index.ts`
(line 40): `'weekly' | 'monthly' | 'quarterly' | 'yearly'`. -/
inductive Period where
  | weekly
  | monthly
  | quarterly
  | yearly
deriving DecidableEq, Repr

/-- The `Budget` record of `types/index.ts` (lines 35–49), with the
`created_at`/`updated_at` metadata strings omitted. -/
structure Budget where
  id : String
  name : String
  category_id : Option String
  amount : ℚ
  period : Period
  spent : ℚ
  remaining : ℚ
  is_active : Bool
  notification_threshold : Option ℚ
  start_date : String
  end_date : Option String
deriving DecidableEq, Repr

/-! ## Sample-data import script (`src/unnamed/part_008`) -/

/-- The category-name → category-id table of `mapCategory`
(`part_008`, lines 72–92), in source order. -/
def categoryMap : List (String × String) :=
  [ ("Supermarkten", "cat_supermarkets")
  , ("Boodschappen", "cat_supermarkets")
  , ("Restaurants", "cat_restaurants")
  , ("Transport", "cat_transport")
  , ("Wonen", "cat_housing")
  , ("Vrije tijd", "cat_leisure")
  , ("Werk", "cat_work")
  , ("Zorg", "cat_health")
  , ("Belastingen", "cat_taxes")
  , ("Verzekeringen", "cat_insurance")
  , ("Kleding", "cat_clothing")
  , ("Electronica", "cat_electronics")
  , ("Huishouden", "cat_household")
  , ("Sport", "cat_sports")
  , ("Communicatie", "cat_communication")
  , ("Kinderen", "cat_children")
  , ("Auto", "cat_auto")
  , ("Banken", "cat_banks")
  , ("Bonus", "cat_bonus") ]

/-- Embeds `mapCategory` (`part_008`, lines 71–95):
`return categoryMap[categoryName] || null` — a plain object lookup whose
miss (`undefined`, coerced by `|| null`) is modelled as `none`.  All table
values are non-empty strings, so the `||` coercion changes nothing else. -/
def mapCategory (categoryName : String) : Option String :=
  (categoryMap.find? (fun p => decide (p.1 = categoryName))).map Prod.snd

/-- The list of category names for which `mapCategory` has an entry. -/
def knownCategoryNames : List String := categoryMap.map Prod.fst

/-- ASCII lower-casing of one character — model of the effect of JS
`toLowerCase` on the repository's ASCII column values. -/
def asciiToLower (c : Char) : Char :=
  if 'A' ≤ c ∧ c ≤ 'Z' then Char.ofNat (c.toNat + 32) else c

/-- Model of JS `String.prototype.toLowerCase` (ASCII range). -/
def jsToLower (s : String) : String := String.mk (s.data.map asciiToLower)

/-- Digit-by-digit scan of JavaScript `parseFloat`, restricted to the
syntax the script's inputs use: decimal digits with at most one `.` as
decimal point, reading the longest such prefix and ignoring everything
after it.  The scan returns the mantissa value and the number of digits
seen after the decimal point, so the parsed value is
`mantissa / 10 ^ fracLen`.  Exponents and leading whitespace are not
modelled — no input in the repository uses them. -/
def parseMantissa : List Char → Bool → Nat → Nat → Nat × Nat
  | [], _, m, k => (m, k)
  | c :: cs, seenDot, m, k =>
      if c.isDigit then
        parseMantissa cs seenDot (m * 10 + (c.toNat - '0'.toNat))
          (if seenDot then k + 1 else k)
      else if c = '.' ∧ ¬seenDot then
        parseMantissa cs true m k
      else
        (m, k)

/-- Sign and mantissa of a JS `parseFloat` call: an optional sign followed
by the digit scan of `parseMantissa`. -/
def jsParseFloatParts (s : String) : Bool × Nat × Nat :=
  let cs := s.data
  if cs.take 1 = ['-'] then (true, parseMantissa (cs.drop 1) false 0 0)
  else if cs.take 1 = ['+'] then (false, parseMantissa (cs.drop 1) false 0 0)
  else (false, parseMantissa cs false 0 0)

/-- JS `parseFloat`, as used at `part_008` line 49 (`parseFloat(values[2])`).
JS returns `NaN` when no numeric prefix exists; `NaN` has no rational
counterpart and is modelled as `0` (no embedded claim evaluates the
function there). -/
def jsParseFloat (s : String) : ℚ :=
  let p := jsParseFloatParts s
  if p.1 then -((p.2.1 : ℚ) / 10 ^ p.2.2) else (p.2.1 : ℚ) / 10 ^ p.2.2

/-- One iteration of the row loop of `parseCsvToTransactions`
(`part_008`, lines 44–59), applied to the comma-split field list of a
non-empty trimmed line.  `now` stands for the ambient `Date.now()` and `i`
for the loop index used in the generated id.  Fields read past the end of
the list are modelled as the empty string (the script is only ever run on
rows that have them). -/
def parseCsvRow (now i : Nat) (values : List String) : Transaction :=
  { id := "txn_" ++ toString now ++ "_" ++ toString i
  , date := values.getD 0 ""
  , description := values.getD 1 ""
  , amount := jsParseFloat (values.getD 2 "")
  , transaction_type :=
      if jsToLower (values.getD 3 "") = "credit" then TransactionType.credit
      else TransactionType.debit
  , category_id := mapCategory (values.getD 4 "")
  , account_number := values.get? 5
  , account_holder := values.get? 6
  , tags :=
      let v7 := values.getD 7 ""
      if v7 = "" then [] else v7.split (· == ';')
  , notes := ""
  , is_recurring := false }

/-- Embeds `parseCsvToTransactions` (`part_008`, lines 31–66): split the file into
lines, skip the header (index 0), trim each line, skip empty ones, split
the rest on `,` and build a transaction per row.  The loop index `i` (the
position in the line list) feeds the generated id. -/
def parseCsvToTransactions (now : Nat) (csvContent : String) : List Transaction :=
  let lines := csvContent.split (· == '\n')
  ((lines.enum.filter (fun p => 1 ≤ p.1 ∧ p.2.trim ≠ "")).map
    (fun p => parseCsvRow now p.1 ((p.2.trim).split (· == ','))))

/-- The per-category spend accumulation of `prepareData`
(`part_008`, lines 110–116): transactions with `transaction_type == 'debit'`
and a truthy `category_id` contribute `Math.abs(tx.amount)` to the entry at
their `category_id`.  `spendingByCategory txs c` is the value at key `c`
(`0` when the key is absent); a key is only ever a non-empty string. -/
def spendingByCategory (txs : List Transaction) (c : String) : ℚ :=
  (txs.filter (fun t =>
      decide (t.transaction_type = TransactionType.debit ∧ t.category_id = some c ∧ c ≠ ""))).foldl
    (fun s t => s + |t.amount|) 0

/-- The budget update of `prepareData` (`part_008`, lines 119–123):
`spent = spendingByCategory[budget.category_id] || 0`,
`remaining = amount - spent`.  A budget without `category_id` looks up
`undefined` and falls back to `0`. -/
def updateBudget (txs : List Transaction) (b : Budget) : Budget :=
  let spent :=
    match b.category_id with
    | none => 0
    | some c => spendingByCategory txs c
  { b with spent := spent, remaining := b.amount - spent }

/-- The `seedData.budgets.forEach` of `prepareData` (`part_008`,
lines 119–123), as a pure map. -/
def updateBudgets (txs : List Transaction) (bs : List Budget) : List Budget :=
  bs.map (updateBudget txs)

/-! ## Budget component (`src/spaarapp/frontend/src/components/Budgets.tsx`) -/

/-- Embeds `getProgressPercentage` (`Budgets.tsx`, lines 156–160):
`0` when `budget.amount <= 0`, otherwise `(spent / amount) * 100`
capped at `100`. -/
def getProgressPercentage (b : Budget) : ℚ :=
  if b.amount ≤ 0 then 0
  else min (b.spent / b.amount * 100) 100

/-- Embeds `getBudgetStatus` (`Budgets.tsx`, lines 163–195), reduced to the
`text` field of the returned status object (the colour and icon are
presentation attributes determined by the same branch). -/
def getBudgetStatus (b : Budget) : String :=
  let percentage := getProgressPercentage b
  if percentage ≥ 100 then "OverBudget"
  else if percentage ≥ 80 then "Waarschuwing"
  else if percentage ≥ 50 then "Op Goed Weg"
  else "Goed"

/-- The `BudgetFormData` state of `Budgets.tsx` (lines 55–64). -/
structure BudgetFormData where
  name : String
  category_id : Option String
  amount : ℚ
  period : Period
  start_date : String
  end_date : Option String
  is_active : Bool
  notification_threshold : Option ℚ
deriving DecidableEq, Repr

/-- Embeds `handleCreateBudget` (`Budgets.tsx`, lines 206–222) as a state
transition on the `budgets` list.  The guard
`!formData.name.trim() || formData.amount <= 0` sets the error message and
returns before any API call; otherwise the budget built by the backend
(`budgetsApi.create`, abstracted as `create`) is appended.  The result is
the error banner (if any) together with the new `budgets` state. -/
def handleCreateBudget (create : BudgetFormData → Budget)
    (formData : BudgetFormData) (budgets : List Budget) :
    Option String × List Budget :=
  if formData.name.trim = "" ∨ formData.amount ≤ 0 then
    (some "Budget naam en bedrag zijn verplicht", budgets)
  else
    (none, budgets ++ [create formData])

/-- Embeds `handleUpdateBudget` (`Budgets.tsx`, lines 225–246): same guard, with
the additional `!editingBudget` check; on success the budget with the
edited id is replaced by the backend's updated budget (`budgetsApi.update`,
abstracted as `update`). -/
def handleUpdateBudget (update : String → BudgetFormData → Budget)
    (editingBudget : Option Budget) (formData : BudgetFormData)
    (budgets : List Budget) : Option String × List Budget :=
  match editingBudget with
  | none => (some "Budget naam en bedrag zijn verplicht", budgets)
  | some editing =>
      if formData.name.trim = "" ∨ formData.amount ≤ 0 then
        (some "Budget naam en bedrag zijn verplicht", budgets)
      else
        (none, budgets.map (fun b =>
          if b.id = editing.id then update editing.id formData else b))

/-- The render-time remaining amount of the budget card
(`Budgets.tsx`, line 360): `const remaining = budget.amount - budget.spent`. -/
def renderedRemaining (b : Budget) : ℚ := b.amount - b.spent

/-! ## Declared import-result shapes (`src/spaarapp/frontend/src/types/index.ts`) -/

/-- The `ImportResult` interface (`types/index.ts`, lines 186–192). -/
structure TsImportResult where
  success : Bool
  imported : Nat
  skipped : Nat
  errors : List String
  transactions : List Transaction
deriving Repr

/-- The `CsvImportResult` interface (`types/index.ts`, lines 194–201). -/
structure TsCsvImportResult where
  success : Bool
  transactions : List Transaction
  errors : List String
  warnings : List String
  total_rows : Nat
  imported_rows : Nat
deriving Repr

/-! ## The backend import pipeline, modelled from the spec

The commands `parse_csv` / `import_csv` invoked by
`services/api` (`src/unnamed/part_001`, lines 352–390) and
`services/tauri-api` (`src/unnamed/part_003`, lines 562–607) are
implemented in the Rust backend, which is not among the frontend sources;
only their callers and result declarations are.  The definitions below
model that pipeline from spec §4.2, §6 and §7. -/

/-- Modelled from the spec: a normalized transaction candidate produced by
the Record Normalizer (§4.1) — the fields the Deduplicator's fingerprint
reads (§4.2): date, amount, description, counterparty account. -/
structure Candidate where
  date : String
  amount : ℚ
  description : String
  counterparty_account : Option String
deriving DecidableEq, Repr

/-- Modelled from the spec (§4.2): the content fingerprint is "a
deterministic hash over (date, amount, description, counterparty_account)";
the hash is modelled by the tuple itself, which is deterministic and
injective on the hashed content. -/
def fingerprint (c : Candidate) : String × ℚ × String × Option String :=
  (c.date, c.amount, c.description, c.counterparty_account)

/-- A candidate whose fingerprint already occurs in the ledger. -/
def hasDuplicateIn (ledger : List Candidate) (c : Candidate) : Bool :=
  ledger.any (fun t => decide (fingerprint t = fingerprint c))

/-- Modelled from the spec (§4.1): one row of a parsed file — either a
normalized candidate or a row error reason (unparseable date or amount). -/
def ParsedRow := Except String Candidate

/-- A row error of the import result (§6): 1-based row number and reason. -/
structure RowError where
  row : Nat
  reason : String
deriving DecidableEq, Repr

/-- Modelled from the spec (§6): the structured import result
`{ success, imported_count, duplicate_count, total_processed, errors,
warnings }` returned to the caller (the shape the mock
`appApi.importCsv` of `part_001`, lines 352–390, also produces). -/
structure ImportResult where
  success : Bool
  imported_count : Nat
  duplicate_count : Nat
  total_processed : Nat
  errors : List RowError
  warnings : List String
deriving DecidableEq, Repr

/-- Running state of an import pass: the ledger plus the counters of the
eventual result.  `parsed` counts rows that parsed successfully. -/
structure ImportState where
  ledger : List Candidate
  imported_count : Nat
  duplicate_count : Nat
  parsed : Nat
  errors : List RowError
deriving DecidableEq, Repr

/-- Modelled from the spec (§4.2, §7): process the rows of a file in
order, starting at 1-based row number `i`.  A row error is collected and
does not abort; a candidate whose fingerprint is already in the ledger
(from a previous import or from an earlier row of this one) counts as a
duplicate; any other candidate is appended to the ledger. -/
def importRows : Nat → ImportState → List ParsedRow → ImportState
  | _, st, [] => st
  | i, st, Except.error reason :: rest =>
      importRows (i + 1) { st with errors := st.errors ++ [⟨i, reason⟩] } rest
  | i, st, Except.ok c :: rest =>
      if hasDuplicateIn st.ledger c then
        importRows (i + 1)
          { st with duplicate_count := st.duplicate_count + 1, parsed := st.parsed + 1 } rest
      else
        importRows (i + 1)
          { st with ledger := st.ledger ++ [c]
                  , imported_count := st.imported_count + 1
                  , parsed := st.parsed + 1 } rest

/-- Modelled from the spec (§6, §7): import a parsed file against a
ledger, producing the structured result and the new ledger.
`success = false` only when zero rows could be parsed. -/
def importFile (ledger : List Candidate) (rows : List ParsedRow) :
    ImportResult × List Candidate :=
  let st := importRows 1 ⟨ledger, 0, 0, 0, []⟩ rows
  ({ success := decide (0 < st.parsed)
   , imported_count := st.imported_count
   , duplicate_count := st.duplicate_count
   , total_processed := rows.length
   , errors := st.errors
   , warnings := [] }, st.ledger)

/-- The number of rows of a parsed file that parsed successfully. -/
def okCount (rows : List ParsedRow) : Nat :=
  (rows.filter (fun r => match r with | Except.ok _ => true | _ => false)).length

/-- The row errors of a parsed file, numbered from `i`. -/
def rowErrorsFrom (i : Nat) : List ParsedRow → List RowError
  | [] => []
  | Except.error reason :: rest => ⟨i, reason⟩ :: rowErrorsFrom (i + 1) rest
  | Except.ok _ :: rest => rowErrorsFrom (i + 1) rest

/-! ## Claim-side reference definitions

These definitions follow the specification's words, for comparison with
the embedded source functions; they are not translations of source code. -/

/-- The claim's `spent` (spec §4.4): sum of `abs(amount)` over all
transactions whose `category_id` equals the budget's (all transactions
when the budget's `category_id` is `None`), whose date lies in the current
period interval (supplied here as the membership test `inPeriod`),
restricted to debit-direction transactions. -/
def specSpent (txs : List Transaction) (categoryFilter : Option String)
    (inPeriod : String → Bool) : ℚ :=
  ((txs.filter (fun t =>
      (match categoryFilter with
       | none => true
       | some c => decide (t.category_id = some c)) &&
      inPeriod t.date &&
      decide (t.transaction_type = TransactionType.debit))).map
    (fun t => |t.amount|)).sum

/-- The natural-number value of a digit string. -/
def decDigitsNat (cs : List Char) : Nat :=
  cs.foldl (fun a c => a * 10 + (c.toNat - '0'.toNat)) 0

/-- Sign, integer digits and fraction digits of a European-format amount
after stripping the `.` thousands separators and splitting at the `,`
decimal separator. -/
def europeanDecimalParts (s : String) : Bool × List Char × List Char :=
  let cs := s.data.filter (fun c => decide (c ≠ '.'))
  let neg := decide (cs.take 1 = ['-'])
  let body := if neg then cs.drop 1 else cs
  (neg, body.takeWhile (fun c => decide (c ≠ ',')),
   (body.dropWhile (fun c => decide (c ≠ ','))).drop 1)

/-- The claim's amount parsing (spec §4.1 step 3): strip the `.` thousands
separators, use `,` as the decimal separator, and read the result as an
exact decimal. -/
def europeanDecimal (s : String) : ℚ :=
  let p := europeanDecimalParts s
  let v := (decDigitsNat p.2.1 : ℚ) + (decDigitsNat p.2.2 : ℚ) / (10 : ℚ) ^ p.2.2.length
  if p.1 then -v else v

/-! ## Concrete values used by counterexamples and witnesses -/

/-- A baseline transaction; counterexamples override the relevant fields. -/
def txBase : Transaction :=
  { id := "t0", description := "", amount := 0, date := "2024-01-01"
  , category_id := none, account_number := none, account_holder := none
  , transaction_type := TransactionType.debit, notes := "", tags := []
  , is_recurring := false }

/-- A baseline budget; counterexamples override the relevant fields. -/
def bBase : Budget :=
  { id := "b0", name := "Budget", category_id := none, amount := 0
  , period := Period.monthly, spent := 0, remaining := 0, is_active := true
  , notification_threshold := none, start_date := "2024-01-01"
  , end_date := none }

/-- A categorized debit transaction dated outside January 2024. -/
def txC2a : Transaction :=
  { txBase with
      id := "t1", amount := -50, date := "2023-05-05",
      category_id := some "cat_transport" }

/-- A categorized debit transaction dated inside January 2024. -/
def txC2b : Transaction :=
  { txBase with
      id := "t2", amount := -30, date := "2024-01-10",
      category_id := some "cat_transport" }

/-- The two-transaction ledger of the C2 counterexample. -/
def txsC2 : List Transaction := [txC2a, txC2b]

/-- An overall budget (no `category_id`). -/
def bC2none : Budget := { bBase with id := "b1", amount := 100 }

/-- A budget attached to the transport category. -/
def bC2cat : Budget :=
  { bBase with id := "b2", amount := 100, category_id := some "cat_transport" }

/-- Membership test for the January-2024 period interval
(`2024-01-01 ≤ date < 2024-02-01` on ISO-ordered date strings). -/
def inJanuary2024 (d : String) : Bool := "2024-01".data.isPrefixOf d.data

/-- A budget with `notification_threshold = 0.5` and `spent / amount = 0.6`. -/
def bC3 : Budget :=
  { bBase with amount := 100, spent := 60, notification_threshold := some (1/2) }

/-- A budget past the fixed 80% warning breakpoint. -/
def bC3warn : Budget := { bBase with amount := 100, spent := 85 }

/-- The comma-split fields of a CSV row whose direction column holds the
Dutch credit marker `Bij` and whose amount is positive. -/
def rowC7 : List String :=
  ["01-01-2024", "inleg spaarrekening", "50", "Bij", "Onbekend", "NL91X", "J", ""]

/-- The comma-split fields of a CSV row whose direction column says
`credit` while the amount field carries a literal negative sign. -/
def rowC7credit : List String :=
  ["01-01-2024", "terugboeking", "-100", "credit", "Onbekend", "NL91X", "J", ""]

/-- A budget form with a non-empty name and a non-positive amount. -/
def fdC9 : BudgetFormData :=
  { name := "Boodschappen", category_id := none, amount := -5
  , period := Period.monthly, start_date := "2024-01-01", end_date := none
  , is_active := true, notification_threshold := none }

/-- A budget with a zero allowance and positive spend. -/
def bC10zero : Budget := { bBase with amount := 0, spent := 5 }

/-- A budget whose spend exceeds its allowance. -/
def bC10over : Budget := { bBase with amount := 100, spent := 250 }

/-- A normalized candidate used by the import counterexamples. -/
def candA : Candidate :=
  { date := "15-01-2024", amount := -87, description := "Albert Heijn"
  , counterparty_account := some "NL91ABNA0417164300" }

/-- A second, distinct candidate. -/
def candB : Candidate :=
  { date := "10-01-2024", amount := -125, description := "NS Vervoer"
  , counterparty_account := some "NL91ABNA0417164300" }

/-- A parsed file holding the same row twice — the spec §8 example
scenario of a literal duplicate row. -/
def rowsC1 : List ParsedRow := [Except.ok candA, Except.ok candA]

/-- A parsed file mixing two good rows and one row error. -/
def rowsC8 : List ParsedRow :=
  [Except.ok candA, Except.error "ongeldige datum", Except.ok candB]

/-! ## Helper lemmas -/

theorem foldl_add_abs (l : List Transaction) (a : ℚ) :
    l.foldl (fun s t => s + |t.amount|) a = a + (l.map (fun t => |t.amount|)).sum := by
  induction l generalizing a with
  | nil => simp
  | cons t ts ih => simp [ih, add_assoc]

theorem spendingByCategory_eq (txs : List Transaction) (c : String) :
    spendingByCategory txs c =
      ((txs.filter (fun t =>
          decide (t.transaction_type = TransactionType.debit ∧
            t.category_id = some c ∧ c ≠ ""))).map (fun t => |t.amount|)).sum := by
  unfold spendingByCategory
  rw [foldl_add_abs, zero_add]

theorem spendingByCategory_nonneg (txs : List Transaction) (c : String) :
    0 ≤ spendingByCategory txs c := by
  rw [spendingByCategory_eq]
  refine List.sum_nonneg ?_
  intro x hx
  rcases List.mem_map.mp hx with ⟨t, -, rfl⟩
  exact abs_nonneg _

theorem progress_ge_iff (b : Budget) (ha : 0 < b.amount) (c : ℚ) (hc : c ≤ 100) :
    c ≤ getProgressPercentage b ↔ c / 100 ≤ b.spent / b.amount := by
  unfold getProgressPercentage
  rw [if_neg (not_le.mpr ha), le_min_iff, and_iff_left hc,
    div_le_iff₀ (by norm_num : (0 : ℚ) < 100)]

theorem parseMantissa_digits (rest : List Char) :
    ∀ (ds : List Char) (m k : Nat), (∀ c ∈ ds, c.isDigit) →
      parseMantissa (ds ++ ',' :: rest) false m k =
        (ds.foldl (fun a c => a * 10 + (c.toNat - '0'.toNat)) m, k) := by
  intro ds
  induction ds with
  | nil =>
      intro m k _
      have h1 : (',' : Char).isDigit = false := by decide
      simp [parseMantissa, h1]
  | cons c cs ih =>
      intro m k h
      have hc : c.isDigit = true := h c (by simp)
      simp only [List.cons_append, parseMantissa, hc, if_true]
      exact ih _ _ (fun d hd => h d (by simp [hd]))

theorem importRows_ledger_append (rows : List ParsedRow) :
    ∀ (i : Nat) (st : ImportState),
      ∃ ext, (importRows i st rows).ledger = st.ledger ++ ext := by
  induction rows with
  | nil => intro i st; exact ⟨[], by simp [importRows]⟩
  | cons r rest ih =>
      intro i st
      match r with
      | Except.error reason =>
          simpa [importRows] using ih (i + 1) _
      | Except.ok c =>
          by_cases hd : hasDuplicateIn st.ledger c
          · simpa [importRows, hd] using ih (i + 1) _
          · rcases ih (i + 1)
              { st with ledger := st.ledger ++ [c]
                      , imported_count := st.imported_count + 1
                      , parsed := st.parsed + 1 } with ⟨ext, hext⟩
            exact ⟨[c] ++ ext, by simp [importRows, hd, hext]⟩

theorem hasDuplicateIn_append_left (L ext : List Candidate) (c : Candidate)
    (h : hasDuplicateIn L c = true) : hasDuplicateIn (L ++ ext) c = true := by
  simp only [hasDuplicateIn, List.any_append, Bool.or_eq_true]
  exact Or.inl h

theorem importRows_mem_fingerprint (rows : List ParsedRow) :
    ∀ (i : Nat) (st : ImportState) (c : Candidate), Except.ok c ∈ rows →
      hasDuplicateIn (importRows i st rows).ledger c = true := by
  induction rows with
  | nil => intro i st c hc; cases hc
  | cons r rest ih =>
      intro i st c hc
      rcases List.mem_cons.mp hc with heq | hmem
      · subst heq
        simp only [importRows]
        by_cases hd : hasDuplicateIn st.ledger c
        · rw [if_pos hd]
          rcases importRows_ledger_append rest (i + 1)
            { st with duplicate_count := st.duplicate_count + 1
                    , parsed := st.parsed + 1 } with ⟨ext, hext⟩
          rw [hext]
          exact hasDuplicateIn_append_left _ _ _ hd
        · rw [if_neg hd]
          rcases importRows_ledger_append rest (i + 1)
            { st with ledger := st.ledger ++ [c]
                    , imported_count := st.imported_count + 1
                    , parsed := st.parsed + 1 } with ⟨ext, hext⟩
          rw [hext]
          refine hasDuplicateIn_append_left _ _ _ ?_
          simp [hasDuplicateIn]
      · match r with
        | Except.error reason => simpa [importRows] using ih (i + 1) _ c hmem
        | Except.ok c0 =>
            by_cases hd : hasDuplicateIn st.ledger c0 <;>
              simpa [importRows, hd] using ih (i + 1) _ c hmem

theorem okCount_nil : okCount [] = 0 := rfl

theorem okCount_cons_ok (c : Candidate) (rest : List ParsedRow) :
    okCount (Except.ok c :: rest) = okCount rest + 1 := by
  simp [okCount, List.filter]

theorem okCount_cons_error (reason : String) (rest : List ParsedRow) :
    okCount (Except.error reason :: rest) = okCount rest := by
  simp [okCount, List.filter]

theorem importRows_counts (rows : List ParsedRow) :
    ∀ (i : Nat) (st : ImportState),
      (importRows i st rows).imported_count + (importRows i st rows).duplicate_count =
          st.imported_count + st.duplicate_count + okCount rows ∧
        (importRows i st rows).parsed = st.parsed + okCount rows ∧
        (importRows i st rows).errors = st.errors ++ rowErrorsFrom i rows := by
  induction rows with
  | nil => intro i st; simp [importRows, okCount_nil, rowErrorsFrom]
  | cons r rest ih =>
      intro i st
      match r with
      | Except.error reason =>
          rcases ih (i + 1) { st with errors := st.errors ++ [⟨i, reason⟩] } with
            ⟨h1, h2, h3⟩
          refine ⟨?_, ?_, ?_⟩ <;>
            · simp [importRows, okCount_cons_error, rowErrorsFrom, h1, h2, h3]
              try omega
      | Except.ok c =>
          by_cases hd : hasDuplicateIn st.ledger c
          · rcases ih (i + 1)
              { st with duplicate_count := st.duplicate_count + 1
                      , parsed := st.parsed + 1 } with ⟨h1, h2, h3⟩
            refine ⟨?_, ?_, ?_⟩ <;>
              · simp [importRows, hd, okCount_cons_ok, rowErrorsFrom, h1, h2, h3]
                try omega
          · rcases ih (i + 1)
              { st with ledger := st.ledger ++ [c]
                      , imported_count := st.imported_count + 1
                      , parsed := st.parsed + 1 } with ⟨h1, h2, h3⟩
            refine ⟨?_, ?_, ?_⟩ <;>
              · simp [importRows, hd, okCount_cons_ok, rowErrorsFrom, h1, h2, h3]
                try omega

theorem importRows_all_dup (rows : List ParsedRow) :
    ∀ (i : Nat) (st : ImportState),
      (∀ c : Candidate, Except.ok c ∈ rows → hasDuplicateIn st.ledger c = true) →
      importRows i st rows =
        { st with duplicate_count := st.duplicate_count + okCount rows
                , parsed := st.parsed + okCount rows
                , errors := st.errors ++ rowErrorsFrom i rows } := by
  induction rows with
  | nil =>
      intro i st _
      simp [importRows, okCount_nil, rowErrorsFrom]
  | cons r rest ih =>
      intro i st hall
      match r with
      | Except.error reason =>
          have hstep := ih (i + 1) { st with errors := st.errors ++ [⟨i, reason⟩] }
            (fun c hc => hall c (List.mem_cons_of_mem _ hc))
          rw [importRows, hstep]
          simp [okCount_cons_error, rowErrorsFrom]
      | Except.ok c =>
          have hd : hasDuplicateIn st.ledger c = true := hall c (List.mem_cons_self _ _)
          have hstep := ih (i + 1)
            { st with duplicate_count := st.duplicate_count + 1, parsed := st.parsed + 1 }
            (fun c0 hc0 => hall c0 (List.mem_cons_of_mem _ hc0))
          rw [importRows, if_pos hd, hstep]
          simp [okCount_cons_ok, rowErrorsFrom]
          constructor <;> omega

/-! ## Claim C1 — idempotent import -/

/-- C1 counterexample: the spec §8 example file (the same row twice)
against an empty ledger.  The first import succeeds with
`imported_count = N = 1`, but re-importing yields `duplicate_count = 2`,
not `N = 1` — every parsed row of the second run is a duplicate, including
the one that was already a duplicate on the first run. -/
theorem C1_counterexample :
    (importFile [] rowsC1).1.success = true ∧
    (importFile [] rowsC1).1.imported_count = 1 ∧
    (importFile [] rowsC1).1.duplicate_count = 1 ∧
    (importFile ((importFile [] rowsC1).2) rowsC1).1.imported_count = 0 ∧
    (importFile ((importFile [] rowsC1).2) rowsC1).1.duplicate_count = 2 := by
  simp [importFile, importRows, rowsC1, hasDuplicateIn, fingerprint]

/-- C1 (amended): re-importing the same file against the resulting ledger
creates no duplicate transactions (the ledger is unchanged) and yields
`imported_count = 0`; its `duplicate_count` is the total number of
successfully parsed rows, i.e. the first run's
`imported_count + duplicate_count` — which equals the first run's
`imported_count = N` exactly when the first run reported no duplicates. -/
theorem C1_reimport_amended (ledger : List Candidate) (rows : List ParsedRow) :
    (importFile ((importFile ledger rows).2) rows).2 = (importFile ledger rows).2 ∧
    (importFile ((importFile ledger rows).2) rows).1.imported_count = 0 ∧
    (importFile ((importFile ledger rows).2) rows).1.duplicate_count =
      (importFile ledger rows).1.imported_count +
        (importFile ledger rows).1.duplicate_count ∧
    ((importFile ledger rows).1.duplicate_count = 0 →
      (importFile ((importFile ledger rows).2) rows).1.duplicate_count =
        (importFile ledger rows).1.imported_count) := by
  have hall : ∀ c : Candidate, Except.ok c ∈ rows →
      hasDuplicateIn (importRows 1 ⟨ledger, 0, 0, 0, []⟩ rows).ledger c = true :=
    fun c hc => importRows_mem_fingerprint rows 1 _ c hc
  have hrun2 := importRows_all_dup rows 1
    ⟨(importRows 1 ⟨ledger, 0, 0, 0, []⟩ rows).ledger, 0, 0, 0, []⟩ (fun c hc => hall c hc)
  obtain ⟨hA, hB, hC⟩ := importRows_counts rows 1 ⟨ledger, 0, 0, 0, []⟩
  simp only at hA hB
  refine ⟨?_, ?_, ?_, ?_⟩
  · simp [importFile, hrun2]
  · simp [importFile, hrun2]
  · simp [importFile, hrun2]
    omega
  · intro h0
    simp [importFile, hrun2] at h0 ⊢
    omega

/-- C1 witness: a duplicate-free two-row file against the empty ledger —
the second import reports `imported_count = 0` and
`duplicate_count = N = 2`. -/
theorem C1_reimport_witness :
    (importFile ((importFile [] [Except.ok candA, Except.ok candB]).2)
        [Except.ok candA, Except.ok candB]).1.imported_count = 0 ∧
    (importFile ((importFile [] [Except.ok candA, Except.ok candB]).2)
        [Except.ok candA, Except.ok candB]).1.duplicate_count =
      (importFile [] [Except.ok candA, Except.ok candB]).1.imported_count := by
  refine ⟨(C1_reimport_amended [] _).2.1, (C1_reimport_amended [] _).2.2.2 ?_⟩
  simp [importFile, importRows, hasDuplicateIn, fingerprint, candA, candB]

/-! ## Claim C2 — spent computation -/

/-- C2 counterexample: with a transport-category debit of 50 dated outside
January 2024 and one of 30 dated inside it, `prepareData` gives the
overall budget (no `category_id`) a spent of `0` where the claim demands
the sum over all transactions in the period (`30`), and gives the
transport budget `80` — counting the out-of-period transaction — where
the claim demands `30`. -/
theorem C2_counterexample :
    (updateBudget txsC2 bC2none).spent = 0 ∧
    specSpent txsC2 none inJanuary2024 = 30 ∧
    (updateBudget txsC2 bC2cat).spent = 80 ∧
    specSpent txsC2 (some "cat_transport") inJanuary2024 = 30 := by
  refine ⟨?_, ?_, ?_, ?_⟩ <;>
    · simp +decide [updateBudget, spendingByCategory, specSpent, txsC2, txC2a, txC2b,
        bC2none, bC2cat, txBase, bBase, inJanuary2024]
      try norm_num

/-- C2 (amended): `prepareData` computes `spent` as the sum of
`abs(amount)` over the debit transactions whose (set, non-empty)
`category_id` equals the budget's, with no date/period restriction; a
budget without `category_id` gets `spent = 0`, not the sum over all
transactions.  Credit transactions never contribute. -/
theorem C2_spent_amended (txs : List Transaction) (b : Budget) :
    ((updateBudget txs b).spent =
      match b.category_id with
      | none => 0
      | some c => if c = "" then 0 else specSpent txs (some c) (fun _ => true)) ∧
    (∀ t : Transaction, t.transaction_type = TransactionType.credit →
      (updateBudget (t :: txs) b).spent = (updateBudget txs b).spent) := by
  constructor
  · unfold updateBudget
    dsimp only
    cases h : b.category_id with
    | none => rfl
    | some c =>
        dsimp only
        by_cases hc : c = ""
        · subst hc
          rw [if_pos rfl, spendingByCategory_eq]
          simp
        · rw [if_neg hc, spendingByCategory_eq]
          unfold specSpent
          refine congrArg List.sum (congrArg _ (List.filter_congr ?_))
          intro t ht
          by_cases h1 : t.category_id = some c <;>
            by_cases h2 : t.transaction_type = TransactionType.debit <;>
              simp [h1, h2, hc]
  · intro t ht
    unfold updateBudget
    dsimp only
    cases h : b.category_id with
    | none => rfl
    | some c =>
        dsimp only
        have heq : spendingByCategory (t :: txs) c = spendingByCategory txs c := by
          unfold spendingByCategory
          rw [List.filter_cons_of_neg]
          simp [ht]
        rw [heq]

/-- C2 witness: the amended equation at the transport budget, and
insensitivity of `spent` to a prepended credit transaction. -/
theorem C2_spent_witness :
    (updateBudget txsC2 bC2cat).spent =
      (if "cat_transport" = "" then 0
       else specSpent txsC2 (some "cat_transport") (fun _ => true)) ∧
    (updateBudget ({ txBase with transaction_type := TransactionType.credit } :: txsC2)
        bC2cat).spent = (updateBudget txsC2 bC2cat).spent :=
  ⟨(C2_spent_amended txsC2 bC2cat).1,
   (C2_spent_amended txsC2 bC2cat).2 _ rfl⟩

/-! ## Claim C3 — warning threshold -/

/-- C3 counterexample: a budget with `notification_threshold = 0.5` and
`spent / amount = 0.6 ≥ 0.5` — the claim puts it in the warning state, but
`getBudgetStatus` ignores `notification_threshold` and reports
`Op Goed Weg` (its fixed breakpoints are 100/80/50). -/
theorem C3_counterexample :
    bC3.notification_threshold = some (1/2) ∧
    (1 : ℚ)/2 ≤ bC3.spent / bC3.amount ∧
    getBudgetStatus bC3 = "Op Goed Weg" ∧
    getBudgetStatus bC3 ≠ "Waarschuwing" ∧ getBudgetStatus bC3 ≠ "OverBudget" := by
  have hstat : getBudgetStatus bC3 = "Op Goed Weg" := by
    simp only [getBudgetStatus, getProgressPercentage, bC3, bBase]
    norm_num
  refine ⟨rfl, by norm_num [bC3, bBase], hstat, ?_, ?_⟩ <;>
    · rw [hstat]
      decide

/-- C3 (amended): the warning state (`Waarschuwing` or `OverBudget`) is a
pure recomputation from the budget's current figures, but against the
fixed 80% breakpoint of `getBudgetStatus`, not the budget's own
`notification_threshold`: it holds iff `amount > 0` and
`spent / amount ≥ 0.8`. -/
theorem C3_warning_amended (b : Budget) :
    (getBudgetStatus b = "Waarschuwing" ∨ getBudgetStatus b = "OverBudget") ↔
      (0 < b.amount ∧ (4 : ℚ)/5 ≤ b.spent / b.amount) := by
  by_cases ha : 0 < b.amount
  · have h80 : ((80 : ℚ) ≤ getProgressPercentage b) ↔ (4 : ℚ)/5 ≤ b.spent / b.amount := by
      rw [progress_ge_iff b ha 80 (by norm_num)]
      norm_num
    unfold getBudgetStatus
    by_cases h1 : getProgressPercentage b ≥ 100
    · have h1' : (80 : ℚ) ≤ getProgressPercentage b := le_trans (by norm_num) h1
      rw [if_pos h1]
      simp +decide [ha, h80.mp h1']
    · rw [if_neg h1]
      by_cases h2 : getProgressPercentage b ≥ 80
      · rw [if_pos h2]
        simp +decide [ha, h80.mp h2]
      · rw [if_neg h2]
        have hn : ¬ (4 : ℚ)/5 ≤ b.spent / b.amount := fun hcontra => h2 (h80.mpr hcontra)
        by_cases h3 : getProgressPercentage b ≥ 50
        · rw [if_pos h3]
          simp +decide [hn]
        · rw [if_neg h3]
          simp +decide [hn]
  · have h0 : getProgressPercentage b = 0 := by
      unfold getProgressPercentage
      rw [if_pos (not_lt.mp ha)]
    unfold getBudgetStatus
    rw [h0]
    norm_num
    simp +decide [ha]

/-- C3 witness: a budget at 85% of its allowance is in the warning state. -/
theorem C3_warning_witness :
    getBudgetStatus bC3warn = "Waarschuwing" ∨ getBudgetStatus bC3warn = "OverBudget" :=
  (C3_warning_amended bC3warn).mpr
    ⟨show (0 : ℚ) < 100 by norm_num, show (4 : ℚ)/5 ≤ 85 / 100 by norm_num⟩

/-! ## Claim C4 — budget invariant -/

/-- C4: every budget produced by the `prepareData` update satisfies
`spent + remaining = amount` with `remaining` recomputed as
`amount - spent`, and `spent ≥ 0`. -/
theorem C4_budget_invariant (txs : List Transaction) (bs : List Budget) (b : Budget)
    (hb : b ∈ updateBudgets txs bs) :
    b.spent + b.remaining = b.amount ∧ 0 ≤ b.spent ∧ b.remaining = b.amount - b.spent := by
  rcases List.mem_map.mp hb with ⟨b0, -, rfl⟩
  unfold updateBudget
  dsimp only
  refine ⟨by ring, ?_, rfl⟩
  cases h : b0.category_id with
  | none => simp [h]
  | some c => simp [h, spendingByCategory_nonneg]

/-- C4 witness: the invariant at the transport budget of the C2 ledger. -/
theorem C4_budget_invariant_witness :
    (updateBudget txsC2 bC2cat).spent + (updateBudget txsC2 bC2cat).remaining =
        (updateBudget txsC2 bC2cat).amount ∧
      0 ≤ (updateBudget txsC2 bC2cat).spent ∧
      (updateBudget txsC2 bC2cat).remaining =
        (updateBudget txsC2 bC2cat).amount - (updateBudget txsC2 bC2cat).spent :=
  C4_budget_invariant txsC2 [bC2cat] _ (by simp [updateBudgets])

/-! ## Claim C5 — categorization totality -/

/-- C5 counterexample: `mapCategory` has no fallback — a category name
outside its 19-entry table yields `null`, and the parsed transaction's
`category_id` is left unset. -/
theorem C5_counterexample :
    mapCategory "Onbekend" = none ∧
    (parseCsvRow 0 1
      ["15-01-2024", "Albert Heijn", "87.45", "debit", "Onbekend",
       "NL91ABNA0417164300", "J. Jansen", ""]).category_id = none := by
  exact ⟨by decide, by decide⟩

/-- C5 (amended): categorization is a partial lookup — `mapCategory`
yields a category exactly for the 19 fixed Dutch names of its table and
`null` for every other name; there is no fallback category and no
confidence value, so `category_id` can be `None` after the stage. -/
theorem C5_categorization_amended (categoryName : String) :
    (mapCategory categoryName).isSome = true ↔ categoryName ∈ knownCategoryNames := by
  unfold mapCategory knownCategoryNames
  rw [Option.isSome_map', List.find?_isSome]
  constructor
  · rintro ⟨p, hp, hpd⟩
    have hpe : p.1 = categoryName := of_decide_eq_true hpd
    exact hpe ▸ List.mem_map_of_mem Prod.fst hp
  · intro h
    rcases List.mem_map.mp h with ⟨p, hp, heq⟩
    exact ⟨p, hp, decide_eq_true heq⟩

/-! ## Claim C6 — amount parsing -/

/-- C6 counterexample: the Bedrag value `87,45` parses to `87` under the
script's `parseFloat` (which stops at the comma), not the exact decimal
`87.45` demanded by the claim; a thousands-grouped `1.234,56` parses to
`1.234` (dot taken as decimal point), not `1234.56`. -/
theorem C6_counterexample :
    jsParseFloat "87,45" = 87 ∧ europeanDecimal "87,45" = 87.45 ∧
    ((87 : ℚ) ≠ 87.45) ∧
    (parseCsvRow 0 1 ["15-01-2024", "Albert Heijn", "87,45", "debit", "", "", "", ""]).amount
      = 87 ∧
    jsParseFloat "1.234,56" = 1.234 ∧ europeanDecimal "1.234,56" = 1234.56 := by
  have h1 : jsParseFloatParts "87,45" = (false, 87, 0) := by decide
  have h2 : europeanDecimalParts "87,45" = (false, ['8', '7'], ['4', '5']) := by decide
  have h3 : jsParseFloatParts "1.234,56" = (false, 1234, 3) := by decide
  have h4 : europeanDecimalParts "1.234,56" =
      (false, ['1', '2', '3', '4'], ['5', '6']) := by decide
  refine ⟨?_, ?_, by norm_num, ?_, ?_, ?_⟩
  · simp [jsParseFloat, h1]
  · simp [europeanDecimal, h2, decDigitsNat]
    norm_num
  · simp [parseCsvRow, List.getD, jsParseFloat, h1]
  · simp [jsParseFloat, h3]
    norm_num
  · simp [europeanDecimal, h4, decDigitsNat]
    norm_num

/-- C6 (amended): the amount is parsed by JS `parseFloat`, which performs
no European normalization: for any digit string before the comma, the
parsed value is the integer named by those digits — everything from the
decimal comma on is discarded. -/
theorem C6_amount_amended (ds rest : List Char) (h : ∀ c ∈ ds, c.isDigit) :
    jsParseFloat (String.mk (ds ++ ',' :: rest)) = (decDigitsNat ds : ℚ) := by
  have hdata : (String.mk (ds ++ ',' :: rest)).data = ds ++ ',' :: rest := rfl
  have hparts : jsParseFloatParts (String.mk (ds ++ ',' :: rest)) =
      (false, decDigitsNat ds, 0) := by
    unfold jsParseFloatParts
    rw [hdata]
    dsimp only
    cases ds with
    | nil =>
        rw [List.nil_append]
        have hm1 : ¬((',' :: rest).take 1 = ['-']) := by
          simp only [List.take_succ_cons, List.take_zero]
          decide
        have hm2 : ¬((',' :: rest).take 1 = ['+']) := by
          simp only [List.take_succ_cons, List.take_zero]
          decide
        rw [if_neg hm1, if_neg hm2]
        rw [show (',' :: rest) = [] ++ ',' :: rest from rfl,
          parseMantissa_digits rest [] 0 0 (by intro c hc; cases hc)]
        rfl
    | cons c cs =>
        have hc : c.isDigit = true := h c (by simp)
        have hne1 : ¬(c :: cs ++ ',' :: rest).take 1 = ['-'] := by
          simp only [List.cons_append, List.take_succ_cons, List.take_zero]
          intro hEq
          rw [List.cons.injEq] at hEq
          rw [hEq.1] at hc
          exact absurd hc (by decide)
        have hne2 : ¬(c :: cs ++ ',' :: rest).take 1 = ['+'] := by
          simp only [List.cons_append, List.take_succ_cons, List.take_zero]
          intro hEq
          rw [List.cons.injEq] at hEq
          rw [hEq.1] at hc
          exact absurd hc (by decide)
        rw [if_neg hne1, if_neg hne2]
        rw [show c :: cs ++ ',' :: rest = (c :: cs) ++ ',' :: rest from rfl,
          parseMantissa_digits rest (c :: cs) 0 0 h]
        rfl
  rw [jsParseFloat, hparts]
  norm_num

/-- C6 witness: the amended statement at the sample row value `87,45`. -/
theorem C6_amount_witness :
    jsParseFloat (String.mk (['8', '7'] ++ ',' :: ['4', '5'])) =
      (decDigitsNat ['8', '7'] : ℚ) :=
  C6_amount_amended ['8', '7'] ['4', '5'] (by decide)

/-! ## Claim C7 — direction invariant -/

/-- C7 counterexample: a row whose direction column holds the Dutch
credit marker `Bij` and whose amount is `50` is classified `debit` — so
`debit` holds with `amount ≥ 0` and with the column not saying
`Af`/`debit`, and the `Bij` column does not win.  A `credit` column with a
literal negative amount keeps the negative amount. -/
theorem C7_counterexample :
    (parseCsvRow 0 1 rowC7).transaction_type = TransactionType.debit ∧
    (parseCsvRow 0 1 rowC7).amount = 50 ∧
    ¬((parseCsvRow 0 1 rowC7).amount < 0) ∧
    rowC7.getD 3 "" = "Bij" ∧
    (parseCsvRow 0 2 rowC7credit).transaction_type = TransactionType.credit ∧
    (parseCsvRow 0 2 rowC7credit).amount = -100 := by
  have h50 : jsParseFloatParts "50" = (false, 50, 0) := by decide
  have h100 : jsParseFloatParts "-100" = (true, 100, 0) := by decide
  have ha : (parseCsvRow 0 1 rowC7).amount = 50 := by
    simp [parseCsvRow, rowC7, List.getD, jsParseFloat, h50]
  refine ⟨by decide, ha, ?_, by decide, by decide, ?_⟩
  · rw [ha]
    norm_num
  · simp [parseCsvRow, rowC7credit, List.getD, jsParseFloat, h100]

/-- C7 (amended): the parsed `transaction_type` is decided solely by the
direction column — `credit` iff that column lower-cases to the literal
`credit`, `debit` otherwise (so `Af`/`Bij` markers are not recognized) —
and is independent of the amount field, whose literal sign is ignored
even when it conflicts with the column. -/
theorem C7_direction_amended (now i : Nat) (values : List String) :
    ((parseCsvRow now i values).transaction_type = TransactionType.credit ↔
      jsToLower (values.getD 3 "") = "credit") ∧
    (∀ a : String, (parseCsvRow now i (values.set 2 a)).transaction_type =
      (parseCsvRow now i values).transaction_type) := by
  constructor
  · unfold parseCsvRow
    dsimp only
    by_cases h : jsToLower (values.getD 3 "") = "credit"
    · simp [h]
    · simp [h]
  · intro a
    unfold parseCsvRow
    dsimp only
    rw [List.getD_eq_getElem?_getD, List.getElem?_set_ne (by decide : (2 : Nat) ≠ 3),
      ← List.getD_eq_getElem?_getD]

/-! ## Claim C8 — import result structure -/

/-- C8: the modelled import result reports the three conditions
separately — `success = false` exactly when zero rows parsed, the row
errors with their 1-based row numbers and reasons, the duplicates in
`duplicate_count` (with `imported_count + duplicate_count` accounting for
every parsed row), and the row total in `total_processed`. -/
theorem C8_import_result (ledger : List Candidate) (rows : List ParsedRow) :
    ((importFile ledger rows).1.success = false ↔ okCount rows = 0) ∧
    (importFile ledger rows).1.errors = rowErrorsFrom 1 rows ∧
    (importFile ledger rows).1.imported_count + (importFile ledger rows).1.duplicate_count
      = okCount rows ∧
    (importFile ledger rows).1.total_processed = rows.length := by
  obtain ⟨hA, hB, hC⟩ := importRows_counts rows 1 ⟨ledger, 0, 0, 0, []⟩
  simp only at hA hB hC
  refine ⟨?_, ?_, ?_, ?_⟩
  · simp [importFile, hB]
  · simp [importFile, hC]
  · simp [importFile]
    omega
  · simp [importFile]

/-! ## Claim C9 — budget validation -/

/-- C9: creating or updating a budget whose form amount is non-positive
is rejected with the validation error banner before any backend call, and
the budgets state is unchanged in both cases. -/
theorem C9_validation (create : BudgetFormData → Budget)
    (update : String → BudgetFormData → Budget) (editing : Option Budget)
    (fd : BudgetFormData) (budgets : List Budget) (h : fd.amount ≤ 0) :
    handleCreateBudget create fd budgets =
      (some "Budget naam en bedrag zijn verplicht", budgets) ∧
    handleUpdateBudget update editing fd budgets =
      (some "Budget naam en bedrag zijn verplicht", budgets) := by
  have hcond : fd.name.trim = "" ∨ fd.amount ≤ 0 := Or.inr h
  constructor
  · unfold handleCreateBudget
    rw [if_pos hcond]
  · unfold handleUpdateBudget
    cases editing with
    | none => rfl
    | some e =>
        dsimp only
        rw [if_pos hcond]

/-- C9 witness: a form with amount `-5` is rejected and the one-budget
state survives both handlers unchanged. -/
theorem C9_validation_witness :
    handleCreateBudget (fun _ => bBase) fdC9 [bBase] =
      (some "Budget naam en bedrag zijn verplicht", [bBase]) ∧
    handleUpdateBudget (fun _ _ => bBase) (some bBase) fdC9 [bBase] =
      (some "Budget naam en bedrag zijn verplicht", [bBase]) :=
  C9_validation _ _ _ _ _ (show (-5 : ℚ) ≤ 0 by norm_num)

/-! ## Claim C10 — progress percentage -/

/-- C10: `getProgressPercentage` is total and clamped — it returns `0`
whenever `amount ≤ 0` (the division is never taken with a non-positive
denominator), returns `min ((spent / amount) * 100) 100` otherwise, and
never exceeds `100`. -/
theorem C10_progress_clamped (b : Budget) :
    getProgressPercentage b ≤ 100 ∧
    (b.amount ≤ 0 → getProgressPercentage b = 0) ∧
    (0 < b.amount → getProgressPercentage b = min (b.spent / b.amount * 100) 100) := by
  unfold getProgressPercentage
  by_cases h : b.amount ≤ 0
  · rw [if_pos h]
    exact ⟨by norm_num, fun _ => rfl, fun hlt => absurd hlt (not_lt.mpr h)⟩
  · rw [if_neg h]
    exact ⟨min_le_right _ _, fun hle => absurd hle h, fun _ => rfl⟩

/-- C10 witness: a zero-amount budget reports `0`, and an over-spent
budget stays capped at `100`. -/
theorem C10_progress_witness :
    getProgressPercentage bC10zero = 0 ∧ getProgressPercentage bC10over ≤ 100 :=
  ⟨(C10_progress_clamped bC10zero).2.1 le_rfl, (C10_progress_clamped bC10over).1⟩

end SpaarApp
